import Mathlib

/-!
Verification development for the `kofeikotirovki` stock-news Telegram bot
(`stock_bot.py`).  The Python source is shallowly embedded: the SQLite-backed
`DatabaseManager` becomes a record of rows, the AI-response parsers become
pure functions over character lists, external service calls and message
deliveries become `Except`-valued oracles supplied as arguments, and the
broadcast loops become folds threading the store state.
-/

set_option maxRecDepth 4096

/-! ## Python-style string helpers -/

/-- Python `str.lower()` (ASCII case folding, which is all the bot relies on). -/
def pyLower (s : String) : String := String.mk (s.data.map Char.toLower)

/-- Python `str.strip()` on a character list. -/
def pyStrip (l : List Char) : List Char :=
  ((l.dropWhile Char.isWhitespace).reverse.dropWhile Char.isWhitespace).reverse

/-- Python substring containment `needle in hay` on character lists. -/
def subList (needle : List Char) : List Char → Bool
  | [] => needle.isEmpty
  | c :: t => needle.isPrefixOf (c :: t) || subList needle t

/-- The permanent-failure test of the broadcast loops:
`"bot was blocked" in str(e).lower()`. -/
def blockedSignal (e : String) : Bool :=
  subList "bot was blocked".data (pyLower e).data

/-! ## Data model (`NewsItem`, `AssetItem`, the `users` / `admin_users` tables) -/

/-- `@dataclass NewsItem` of `stock_bot.py`. -/
structure NewsItem where
  title : String
  summary : String
  source : String
  published : String
  url : String := ""
deriving Repr, DecidableEq

/-- `@dataclass AssetItem` of `stock_bot.py`; prices and percent changes are
modelled as exact rationals extracted by the numeric parsers. -/
structure AssetItem where
  symbol : String
  name : String
  price : ℚ
  change : ℚ
  change_direction : String
  source : String := "AI Research"
deriving Repr, DecidableEq

/-- One row of the `users` table, with the column defaults of
`init_database` (`subscribed DEFAULT TRUE`, `language DEFAULT 'ru'`,
`topic_preferences DEFAULT 'all'`). -/
structure UserRow where
  user_id : Nat
  username : Option String
  first_name : Option String
  last_name : Option String
  subscribed : Bool
  language : String
  topic_preferences : String
  joined_date : Nat
  last_active : Nat
deriving Repr, DecidableEq

/-- The persistent state managed by `DatabaseManager`: the `users` table and
the `admin_users` table (which stores only ids). -/
structure DatabaseManager where
  users : List UserRow
  admin_users : List Nat
deriving Repr, DecidableEq

namespace DatabaseManager

/-- A freshly initialised (empty) database. -/
def empty : DatabaseManager := ⟨[], []⟩

/-- The row update performed by the `ON CONFLICT(user_id) DO UPDATE` arm of
`add_user`: only the display fields and `last_active` change. -/
def setProfile (id : Nat) (u f l : Option String) (now : Nat) (r : UserRow) : UserRow :=
  if r.user_id == id then
    { r with username := u, first_name := f, last_name := l, last_active := now }
  else r

/-- `add_user`: UPSERT that creates the row if absent (with the table's column
defaults) and otherwise updates only the display fields and `last_active`. -/
def add_user (db : DatabaseManager) (id : Nat) (u f l : Option String) (now : Nat) :
    DatabaseManager :=
  if db.users.any (fun r => r.user_id == id) then
    { db with users := db.users.map (setProfile id u f l now) }
  else
    { db with users := db.users ++
        [{ user_id := id, username := u, first_name := f, last_name := l,
           subscribed := true, language := "ru", topic_preferences := "all",
           joined_date := now, last_active := now }] }

/-- `get_subscribed_users`: `SELECT user_id FROM users WHERE subscribed = TRUE`. -/
def get_subscribed_users (db : DatabaseManager) : List Nat :=
  (db.users.filter (fun r => r.subscribed)).map (fun r => r.user_id)

/-- The row update of `unsubscribe_user`. -/
def setUnsub (id : Nat) (r : UserRow) : UserRow :=
  if r.user_id == id then { r with subscribed := false } else r

/-- `subscribe_user`: `UPDATE users SET subscribed = TRUE WHERE user_id = ?`. -/
def subscribe_user (db : DatabaseManager) (id : Nat) : DatabaseManager :=
  { db with users :=
      db.users.map (fun r => if r.user_id == id then { r with subscribed := true } else r) }

/-- `unsubscribe_user`: `UPDATE users SET subscribed = FALSE WHERE user_id = ?`. -/
def unsubscribe_user (db : DatabaseManager) (id : Nat) : DatabaseManager :=
  { db with users := db.users.map (setUnsub id) }

/-- `get_user_count`: `SELECT COUNT(*) FROM users`. -/
def get_user_count (db : DatabaseManager) : Nat := db.users.length

/-- `add_admin`: `INSERT OR IGNORE INTO admin_users`. -/
def add_admin (db : DatabaseManager) (id : Nat) : DatabaseManager :=
  if db.admin_users.contains id then db
  else { db with admin_users := db.admin_users ++ [id] }

/-- `DatabaseManager.is_admin`: membership in the `admin_users` table. -/
def is_admin (db : DatabaseManager) (id : Nat) : Bool :=
  db.admin_users.contains id

/-- `get_user_language`: `result[0] if result else 'ru'`. -/
def get_user_language (db : DatabaseManager) (id : Nat) : String :=
  match db.users.find? (fun r => r.user_id == id) with
  | some r => r.language
  | none => "ru"

/-- `set_user_language`. -/
def set_user_language (db : DatabaseManager) (id : Nat) (language : String) :
    DatabaseManager :=
  { db with users :=
      db.users.map (fun r => if r.user_id == id then { r with language := language } else r) }

/-- `get_user_topics`: `result[0] if result else 'all'`. -/
def get_user_topics (db : DatabaseManager) (id : Nat) : String :=
  match db.users.find? (fun r => r.user_id == id) with
  | some r => r.topic_preferences
  | none => "all"

/-- `set_user_topics`. -/
def set_user_topics (db : DatabaseManager) (id : Nat) (topics : String) :
    DatabaseManager :=
  { db with users :=
      db.users.map (fun r => if r.user_id == id then { r with topic_preferences := topics } else r) }

/-- `is_subscribed`: `result[0] if result else False`. -/
def is_subscribed (db : DatabaseManager) (id : Nat) : Bool :=
  match db.users.find? (fun r => r.user_id == id) with
  | some r => r.subscribed
  | none => false

end DatabaseManager

/-! ## Free-text parsing helpers (the regex work of `_parse_ai_news` /
`_parse_ai_assets`, embedded as line-oriented scanners) -/

/-- Split a character list into lines (Python's implicit `\n` structure used by
`re.split(r'\n\s*\n', ...)`). -/
def splitLines : List Char → List (List Char)
  | [] => [[]]
  | c :: t =>
    if c == '\n' then [] :: splitLines t
    else
      match splitLines t with
      | [] => [[c]]
      | l :: ls => (c :: l) :: ls

/-- A line consisting only of whitespace: part of a `\n\s*\n` paragraph
separator. -/
def isBlankLine (l : List Char) : Bool := l.all Char.isWhitespace

/-- Group the lines of the response into paragraphs, exactly the non-empty
sections produced by `re.split(r'\n\s*\n', content)` (whitespace-only sections
are skipped by the `if not section.strip(): continue` guard). -/
def splitParas (ls : List (List Char)) : List (List (List Char)) :=
  (ls.foldr
    (fun l acc =>
      if isBlankLine l then (acc.1, true)
      else
        match acc with
        | (ps, true) => ([l] :: ps, false)
        | ([], false) => ([[l]], false)
        | (p :: ps, false) => ((l :: p) :: ps, false))
    ([], true)).1

/-- The remainder of `line` after the first occurrence of `label`, if any
(the anchor point of `re.search(r'Label:\s*(.+)', section)`). -/
def afterFirst (label : List Char) : List Char → Option (List Char)
  | [] => if label.isEmpty then some [] else none
  | c :: t =>
    if label.isPrefixOf (c :: t) then some ((c :: t).drop label.length)
    else afterFirst label t

/-- `re.search(r'Label:\s*(.+)', section)` followed by `.group(1).strip()`:
the first line carrying `label` with a non-empty remainder yields that
remainder, stripped. -/
def fieldStr (label : List Char) : List (List Char) → Option (List Char)
  | [] => none
  | l :: ls =>
    match afterFirst label l with
    | some rest => if rest.isEmpty then fieldStr label ls else some (pyStrip rest)
    | none => fieldStr label ls

/-- Does the line open with an ASCII capital (the `(?=\n[A-Z]|\Z)` lookahead
terminating the summary capture)? -/
def startsUpper : List Char → Bool
  | [] => false
  | c :: _ => c.isUpper

/-- `re.search(r'Summary:\s*(.+?)(?=\n[A-Z]|\Z)', section, re.DOTALL)` followed
by `.group(1).strip().replace('\n', ' ')`: the capture runs from the `Summary:`
label up to the next line that starts with a capital letter (or the end of the
section), newlines flattened to spaces. -/
def summaryStr : List (List Char) → Option (List Char)
  | [] => none
  | l :: ls =>
    match afterFirst "Summary:".data l with
    | some rest =>
      if rest.isEmpty then summaryStr ls
      else
        let extra := ls.takeWhile (fun l2 => !(startsUpper l2))
        some ((pyStrip (List.intercalate ['\n'] (rest :: extra))).map
          (fun c => if c == '\n' then ' ' else c))
    | none => summaryStr ls

/-- Decimal digits to a natural number. -/
def digitsToNat (ds : List Char) : Nat :=
  ds.foldl (fun n c => 10 * n + (c.toNat - '0'.toNat)) 0

/-- The numeric token `\d+\.?\d*` read from the front of the list, as an exact
rational. -/
def parseUnsigned (l : List Char) : Option ℚ :=
  let ds := l.takeWhile Char.isDigit
  if ds.isEmpty then none
  else
    let rest := l.drop ds.length
    let frac :=
      match rest with
      | '.' :: r => r.takeWhile Char.isDigit
      | _ => []
    some (mkRat (digitsToNat ds * 10 ^ frac.length + digitsToNat frac) (10 ^ frac.length))

/-- The signed numeric token `[+-]?\d+\.?\d*` of the `Change:` pattern, read
after the `\s*` gap (Python then strips the `+` sign and `%` suffix before
`float(...)`). -/
def parseSigned (l : List Char) : Option ℚ :=
  match l.dropWhile Char.isWhitespace with
  | '+' :: rest => parseUnsigned rest
  | '-' :: rest => (parseUnsigned rest).map Rat.neg
  | rest => parseUnsigned rest

/-- `re.search(r'[\d,]+\.?\d*', price_str.replace(',', ''))`: the first numeric
token anywhere in the (comma-free) text. -/
def findNumber : List Char → Option ℚ
  | [] => none
  | c :: t => if c.isDigit then parseUnsigned (c :: t) else findNumber t

/-- The numeric price extracted from the `Price:` text: the first numeric token
after commas are removed, with the fixed `100.0` fallback of
`_parse_ai_assets` when no token exists. -/
def priceOf (pstr : List Char) : ℚ :=
  (findNumber (pstr.filter (fun c => !(c == ',')))).getD 100

/-- The `Change:` extraction: the first `Change:` label in the section that is
followed by a well-formed signed number. -/
def changeNum : List (List Char) → Option ℚ
  | [] => none
  | l :: ls =>
    match afterFirst "Change:".data l with
    | some rest =>
      match parseSigned rest with
      | some q => some q
      | none => changeNum ls
    | none => changeNum ls

/-- The Python loop body pattern `append; if len(...) >= limit: break`,
collecting at most `limit` successfully parsed records in order. -/
def collectLimit (f : α → Option β) : Nat → List α → List β
  | _, [] => []
  | limit, s :: rest =>
    match f s with
    | none => collectLimit f limit rest
    | some b => if limit ≤ 1 then [b] else b :: collectLimit f (limit - 1) rest

namespace StockNewsBot

/-! ## Content generator (`fetch_ai_news`, `_parse_ai_news`, `fetch_ai_assets`,
`_parse_ai_assets`, the digest generators and `send_ai_digest_parts`).
External OpenAI calls are represented by an `Except String String` oracle:
`.ok content` is the text completion, `.error e` a raised network/service
exception. -/

/-- The `topic_descriptions` dictionary of `fetch_ai_news`, as a partial map
(`topic_descriptions[topic]` raises `KeyError` outside these five keys);
each entry is the `(en, ru)` pair of category descriptions. -/
def topic_descriptions (topic : String) : Option (String × String) :=
  if topic == "all" then
    some ("general financial markets, major companies, stock indices, economic indicators, and global market trends",
      "общие финансовые рынки, крупные компании, фондовые индексы, экономические показатели и глобальные рыночные тренды")
  else if topic == "oil_gas" then
    some ("oil prices, natural gas markets, energy companies, OPEC decisions, pipeline developments, and energy policy changes",
      "цены на нефть, рынки природного газа, энергетические компании, решения ОПЕК, развитие трубопроводов и изменения энергетической политики")
  else if topic == "metals_mining" then
    some ("precious metals prices, industrial metals, mining companies, commodity markets, mining regulations, and supply chain developments",
      "цены на драгоценные металлы, промышленные металлы, горнодобывающие компании, товарные рынки, регулирование добычи и развитие цепочек поставок")
  else if topic == "technology" then
    some ("technology companies, AI developments, semiconductor industry, software updates, digital transformation, and tech IPOs",
      "технологические компании, развитие ИИ, полупроводниковая промышленность, обновления программного обеспечения, цифровая трансформация и технологические IPO")
  else if topic == "finance" then
    some ("banking sector, financial services, central bank decisions, interest rates, regulatory changes, and investment trends",
      "банковский сектор, финансовые услуги, решения центральных банков, процентные ставки, изменения в регулировании и инвестиционные тренды")
  else none

/-- `topic_descriptions[topic].get(language, topic_descriptions[topic]['en'])`. -/
def topic_desc (topic language : String) : Option String :=
  (topic_descriptions topic).map (fun p => if language == "ru" then p.2 else p.1)

/-- The `asset_descriptions` dictionary of `fetch_ai_assets` (same five keys,
also indexed without a fallback). -/
def asset_descriptions (topic : String) : Option (String × String) :=
  if topic == "all" then
    some ("major stock indices (S&P 500, Dow Jones, NASDAQ), key individual stocks, and important commodities",
      "основные фондовые индексы (S&P 500, Dow Jones, NASDAQ), ключевые отдельные акции и важные товары")
  else if topic == "oil_gas" then
    some ("oil prices (WTI, Brent crude), natural gas futures, major energy company stocks (Exxon, Chevron, Shell, BP)",
      "цены на нефть (WTI, Brent), фьючерсы на природный газ, акции крупных энергетических компаний (Exxon, Chevron, Shell, BP)")
  else if topic == "metals_mining" then
    some ("precious metals (gold, silver, platinum), industrial metals (copper, aluminum, nickel), mining company stocks",
      "драгоценные металлы (золото, серебро, платина), промышленные металлы (медь, алюминий, никель), акции горнодобывающих компаний")
  else if topic == "technology" then
    some ("major tech stocks (Apple, Microsoft, Google, Amazon, Meta, Tesla, NVIDIA), semiconductor companies, tech ETFs",
      "крупные технологические акции (Apple, Microsoft, Google, Amazon, Meta, Tesla, NVIDIA), компании-производители полупроводников, технологические ETF")
  else if topic == "finance" then
    some ("major bank stocks (JPMorgan, Bank of America, Wells Fargo), financial ETFs, interest rate indicators",
      "акции крупных банков (JPMorgan, Bank of America, Wells Fargo), финансовые ETF, индикаторы процентных ставок")
  else none

/-- `asset_descriptions[topic].get(language, asset_descriptions[topic]['en'])`. -/
def asset_desc (topic language : String) : Option String :=
  (asset_descriptions topic).map (fun p => if language == "ru" then p.2 else p.1)

/-- The per-paragraph body of `_parse_ai_news`: a `NewsItem` is produced only
when both the `Title:` and `Summary:` patterns match; `Source:` defaults to
`"AI Research"` and `Date:` to today's date. -/
def newsOfSection (today : List Char) (sec : List (List Char)) : Option NewsItem :=
  match fieldStr "Title:".data sec, summaryStr sec with
  | some t, some s =>
    some { title := String.mk t, summary := String.mk s,
           source := String.mk ((fieldStr "Source:".data sec).getD "AI Research".data),
           published := String.mk ((fieldStr "Date:".data sec).getD today),
           url := "" }
  | _, _ => none

/-- `_parse_ai_news` (leading underscore dropped): split the completion into
paragraphs, keep paragraphs with both mandatory fields, stop at 7 items.
`today` is `datetime.now().strftime("%Y-%m-%d")`, the `Date:` default. -/
def parse_ai_news (today content : String) : List NewsItem :=
  collectLimit (newsOfSection today.data) 7 (splitParas (splitLines (pyStrip content.data)))

/-- The per-paragraph body of `_parse_ai_assets`: an `AssetItem` needs all of
`Symbol:`, `Price:` and a numeric `Change:`; an unparseable price falls back to
the `100.0` sentinel via `priceOf`. -/
def assetOfSection (sec : List (List Char)) : Option AssetItem :=
  match fieldStr "Symbol:".data sec, fieldStr "Price:".data sec, changeNum sec with
  | some sym, some pstr, some chg =>
    some { symbol := String.mk sym, name := String.mk sym,
           price := priceOf pstr, change := chg,
           change_direction := if 0 ≤ chg then "up" else "down",
           source := "AI Research" }
  | _, _, _ => none

/-- `_parse_ai_assets` (leading underscore dropped). -/
def parse_ai_assets (content : String) : List AssetItem :=
  collectLimit assetOfSection 7 (splitParas (splitLines (pyStrip content.data)))

/-- `fetch_ai_news`: looks the topic up in `topic_descriptions` (a `KeyError`
for an unknown topic lands in the enclosing `except`, which returns `[]`),
queries the completion oracle (any raised error also yields `[]`) and parses
the completion. -/
def fetch_ai_news (topic language today : String) (svc : Except String String) :
    List NewsItem :=
  match topic_desc topic language with
  | none => []
  | some _ =>
    match svc with
    | .error _ => []
    | .ok content => parse_ai_news today content

/-- `fetch_ai_assets`, same shape as `fetch_ai_news`. -/
def fetch_ai_assets (topic language : String) (svc : Except String String) :
    List AssetItem :=
  match asset_desc topic language with
  | none => []
  | some _ =>
    match svc with
    | .error _ => []
    | .ok content => parse_ai_assets content

/-- `generate_news_digest`: the ChatGPT prose call succeeds with the returned
digest, and any raised error is caught and replaced by the locale-appropriate
placeholder. -/
def generate_news_digest (news_items : List NewsItem) (topic language : String)
    (svc : Except String String) : String :=
  match svc with
  | .ok digest => digest
  | .error _ =>
    if language == "ru" then "📰 **Новости временно недоступны** 📰\n\nПопробуйте позже."
    else "📰 **News temporarily unavailable** 📰\n\nPlease try again later."

/-- `generate_predictions_digest`: same error shape with its own placeholder. -/
def generate_predictions_digest (topic language : String)
    (svc : Except String String) : String :=
  match svc with
  | .ok digest => digest
  | .error _ =>
    if language == "ru" then "🔮 **Прогнозы временно недоступны** 🔮\n\nПопробуйте позже."
    else "🔮 **Predictions temporarily unavailable** 🔮\n\nPlease try again later."

/-- A price chip of `generate_assets_digest` (the numeric rendering keeps the
chip structure; no claim depends on the digit formatting). -/
def assetChip (a : AssetItem) : String :=
  let trend := if a.change_direction == "up" then "📈"
    else if a.change_direction == "down" then "📉" else "➡️"
  let color := if a.change_direction == "up" then "🟢"
    else if a.change_direction == "down" then "🔴" else "🟡"
  let arrow := if a.change_direction == "up" then "↗️"
    else if a.change_direction == "down" then "↘️" else "➡️"
  trend ++ " **" ++ a.symbol ++ "** `$" ++ toString a.price ++ "` " ++ color ++
    " `" ++ toString a.change ++ "%` " ++ arrow

/-- `generate_assets_digest`: purely local formatting of the first six assets
between the locale header and footer. -/
def generate_assets_digest (asset_items : List AssetItem) (topic language : String) :
    String :=
  let header := if language == "ru" then "💰 **ЦЕНЫ АКТИВОВ**\n*Текущие котировки*"
    else "💰 **ASSET PRICES**\n*Current Quotes*"
  let footer := if language == "ru" then "\n📊 *Обновлено в реальном времени*"
    else "\n📊 *Updated in real-time*"
  header ++ "\n\n" ++ String.intercalate "\n" ((asset_items.take 6).map assetChip) ++ footer

/-- The four external text-generation calls a digest delivery can make. -/
structure GenOracles where
  newsSvc : Except String String
  assetsSvc : Except String String
  newsDigestSvc : Except String String
  predictionsSvc : Except String String

/-- `send_ai_digest_parts`: the ordered messages sent for one subscriber —
always the news digest, the assets digest only when `asset_items` is
non-empty (`if asset_items:`), and always the predictions digest. -/
def send_ai_digest_parts (topic language today : String) (o : GenOracles) :
    List String :=
  let news_items := fetch_ai_news topic language today o.newsSvc
  let asset_items := fetch_ai_assets topic language o.assetsSvc
  let ms := [generate_news_digest news_items topic language o.newsDigestSvc]
  let ms := if asset_items.isEmpty then ms
    else ms ++ [generate_assets_digest asset_items topic language]
  ms ++ [generate_predictions_digest topic language o.predictionsSvc]

/-! ## Admin bootstrap (`StockNewsBot.is_admin`, `start_command`) -/

/-- `StockNewsBot.is_admin`: while the store holds exactly one user, the
checked id is granted admin and the check succeeds; otherwise the check is the
plain table lookup.  The mutated database is returned alongside the result. -/
def is_admin (db : DatabaseManager) (user_id : Nat) : Bool × DatabaseManager :=
  if db.get_user_count == 1 then (true, db.add_admin user_id)
  else (db.is_admin user_id, db)

/-- The store effect of `start_command`: register-or-touch the caller, then
grant admin when the caller is the only user (`if get_user_count() == 1`). -/
def start_command (db : DatabaseManager) (id : Nat) (u f l : Option String)
    (now : Nat) : DatabaseManager :=
  let db1 := db.add_user id u f l now
  if db1.get_user_count == 1 then db1.add_admin id else db1

/-! ## Broadcast loops (`notify_command`, `send_daily_notifications`).
Per-subscriber processing (digest generation plus message sends) is an
`Except String Unit` oracle: `.error e` is a raised exception with text `e`. -/

/-- The shared fan-out loop body of `notify_command` and
`send_daily_notifications`: each failure is caught and counted, iteration
continues, and a failure carrying the blocked signal unsubscribes that
recipient. -/
def runNotify (deliver : Nat → Except String Unit) :
    List Nat → Nat → Nat → DatabaseManager → Nat × Nat × DatabaseManager
  | [], s, f, db => (s, f, db)
  | uid :: rest, s, f, db =>
    match deliver uid with
    | .ok _ => runNotify deliver rest (s + 1) f db
    | .error e =>
      runNotify deliver rest s (f + 1)
        (if blockedSignal e then db.unsubscribe_user uid else db)

/-- `send_daily_notifications`: fan out over the current subscriber list,
returning `(successful_sends, failed_sends, updated store)`. -/
def send_daily_notifications (db : DatabaseManager)
    (deliver : Nat → Except String Unit) : Nat × Nat × DatabaseManager :=
  runNotify deliver db.get_subscribed_users 0 0 db

/-- `notify_command`'s broadcast: the same loop, with the aggregate
`(successful_sends, failed_sends, len(subscribers))` reported back to the
triggering admin. -/
def notify_command (db : DatabaseManager) (deliver : Nat → Except String Unit) :
    Nat × Nat × Nat × DatabaseManager :=
  let subs := db.get_subscribed_users
  let r := runNotify deliver subs 0 0 db
  (r.1, r.2.1, subs.length, r.2.2)

end StockNewsBot

/-! ## Schedule driver -/

/-- Modelled from the spec: the firing logic behind `schedule_daily_summaries`
and `run_scheduler` lives in the third-party `schedule` package, which is not
part of this repository.  Per §4.4 a job is a (time-of-day, weekday) binding
carried as its next wall-clock firing instant: `nextRun` is an absolute second
count and `period` the weekly repetition interval of
`schedule.every().<weekday>.at("HH:MM")`. -/
structure Job where
  nextRun : Nat
  period : Nat
deriving Repr, DecidableEq

/-- Modelled from the spec: one `schedule.run_pending()` evaluation of a job at
wall-clock second `now` — the job fires exactly once when its firing instant
has been reached and is then rebound one period later. -/
def run_pending (now : Nat) (j : Job) : Bool × Job :=
  if j.nextRun ≤ now then (true, ⟨j.nextRun + j.period, j.period⟩) else (false, j)

/-- Modelled from the spec: the 1-second polling loop of `run_scheduler`
(`while True: schedule.run_pending(); sleep(1)`), observing the `n` wall-clock
seconds `start, start+1, …, start+n-1` and counting how often the job fires. -/
def runTicks (start : Nat) : Nat → Job → Nat × Job
  | 0, j => (0, j)
  | n + 1, j =>
    let p := run_pending start j
    let r := runTicks (start + 1) n p.2
    ((if p.1 then 1 else 0) + r.1, r.2)

/-- The five 08:00 weekday bindings registered by `schedule_daily_summaries`
(`schedule.every().monday.at("08:00")` … `friday`), with the week origin at
Monday 00:00:00: day `k` fires at second `k*86400 + 28800`, weekly. -/
def morning_weekday_jobs : List Job :=
  (List.range 5).map (fun k => ⟨k * 86400 + 28800, 604800⟩)

/-- The Tuesday 08:00 binding of that weekday mask. -/
def tue0800Job : Job := ⟨115200, 604800⟩

/-! ## Startup configuration (`main`) -/

namespace StockBotProcess

/-- The two mandatory credentials read from the environment by `main`. -/
structure Env where
  telegram_bot_token : Option String
  openai_api_key : Option String

/-- What `main` does to the process: the exit status the interpreter reports,
and whether the bot polling / background scheduler thread were started. -/
structure MainOutcome where
  exitCode : Nat
  botStarted : Bool
  schedulerStarted : Bool
deriving Repr, DecidableEq

/-- `main` of `stock_bot.py`: a missing `TELEGRAM_BOT_TOKEN` or
`OPENAI_API_KEY` logs an error and plainly `return`s from `main`, so the
process finishes without starting the bot or the scheduler thread — and, the
`return` being a normal completion, with exit status `0`. -/
def main (env : Env) : MainOutcome :=
  match env.telegram_bot_token with
  | none => ⟨0, false, false⟩
  | some _ =>
    match env.openai_api_key with
    | none => ⟨0, false, false⟩
    | some _ => ⟨0, true, true⟩

end StockBotProcess

/-! ## Derived definitions used by the verification -/

/-- Iterated `/start` handling: the store effect of a sequence of further
`start_command` calls `(id, username, first_name, last_name, now)`. -/
def applyStarts (db : DatabaseManager)
    (ops : List (Nat × Option String × Option String × Option String × Nat)) :
    DatabaseManager :=
  ops.foldl
    (fun d q => StockNewsBot.start_command d q.1 q.2.1 q.2.2.1 q.2.2.2.1 q.2.2.2.2) db

/-- Did the per-subscriber processing succeed (no exception raised)? -/
def okDeliv (d : Nat → Except String Unit) (u : Nat) : Bool :=
  match d u with
  | .ok _ => true
  | .error _ => false

/-- All rows of `uid` are unsubscribed (the state `unsubscribe_user uid`
establishes and the loop preserves). -/
def allUnsub (db : DatabaseManager) (uid : Nat) : Prop :=
  ∀ r ∈ db.users, r.user_id = uid → r.subscribed = false

/-! ## Theorems -/

/-- Claim C10: for every user id not present in the users table,
`get_user_language` returns `"ru"`, `get_user_topics` returns `"all"` and
`is_subscribed` returns `False`: the per-user store queries are total and
return the configured defaults on an unregistered id. -/
theorem absent_id_store_defaults (db : DatabaseManager) (uid : Nat)
    (h : db.users.find? (fun r => r.user_id == uid) = none) :
    db.get_user_language uid = "ru" ∧ db.get_user_topics uid = "all" ∧
      db.is_subscribed uid = false := by
  refine ⟨?_, ?_, ?_⟩ <;>
    simp [DatabaseManager.get_user_language, DatabaseManager.get_user_topics,
      DatabaseManager.is_subscribed, h]

theorem absent_id_store_defaults_witness :
    DatabaseManager.empty.get_user_language 42 = "ru" ∧
      DatabaseManager.empty.get_user_topics 42 = "all" ∧
      DatabaseManager.empty.is_subscribed 42 = false :=
  absent_id_store_defaults DatabaseManager.empty 42 rfl

/-- Claim C9, counterexample: with the Telegram token present but the OpenAI
key absent, `main` returns normally, so the process exit status is `0` — the
claimed non-zero exit status does not happen. -/
theorem startup_exit_counterexample :
    (StockBotProcess.main ⟨some "token", none⟩).exitCode = 0 := rfl

/-- Claim C9, amended: if either mandatory credential is absent at startup,
the process terminates before entering the scheduler loop and neither the bot
nor the scheduler is started — but via a plain `return` from `main`, so the
exit status is `0`, not non-zero. -/
theorem startup_missing_credential (env : StockBotProcess.Env)
    (h : env.telegram_bot_token = none ∨ env.openai_api_key = none) :
    StockBotProcess.main env =
      { exitCode := 0, botStarted := false, schedulerStarted := false } := by
  rcases env with ⟨tok, key⟩
  rcases h with h | h
  · subst h; cases key <;> rfl
  · subst h; cases tok <;> rfl

theorem startup_missing_credential_witness :
    StockBotProcess.main ⟨some "token", none⟩ =
      { exitCode := 0, botStarted := false, schedulerStarted := false } :=
  startup_missing_credential ⟨some "token", none⟩ (Or.inr rfl)

/-- Claim C5, counterexample: an unknown topic does not behave like `"all"` —
`topic_descriptions[topic]` raises `KeyError`, the enclosing handler returns
the empty list, while `"all"` proceeds to query and parse, so the two calls
differ on the same completion. -/
theorem topic_fallback_counterexample :
    StockNewsBot.fetch_ai_news "unknown_topic" "en" "2024-01-01"
        (.ok "Title: T\nSummary: S") ≠
      StockNewsBot.fetch_ai_news "all" "en" "2024-01-01"
        (.ok "Title: T\nSummary: S") := by decide

/-- Claim C5, amended: for every locale and every topic string outside the
configured category set, the lookup `topic_descriptions[topic]` fails
(`KeyError`), the enclosing exception handler catches it, and `fetch_ai_news`
returns the empty list — likewise `fetch_ai_assets`; an unknown topic is NOT
mapped to the `"all"` category description. -/
theorem topic_fallback_empty (topic language today : String)
    (svc : Except String String)
    (h : topic ∉ ["all", "oil_gas", "metals_mining", "technology", "finance"]) :
    StockNewsBot.topic_desc topic language = none ∧
      StockNewsBot.fetch_ai_news topic language today svc = [] ∧
      StockNewsBot.fetch_ai_assets topic language svc = [] := by
  simp only [List.mem_cons, List.mem_singleton, not_or] at h
  obtain ⟨h1, h2, h3, h4, h5, -⟩ := h
  have hd : StockNewsBot.topic_descriptions topic = none := by
    simp [StockNewsBot.topic_descriptions, h1, h2, h3, h4, h5]
  have ha : StockNewsBot.asset_descriptions topic = none := by
    simp [StockNewsBot.asset_descriptions, h1, h2, h3, h4, h5]
  refine ⟨?_, ?_, ?_⟩ <;>
    simp [StockNewsBot.topic_desc, StockNewsBot.asset_desc,
      StockNewsBot.fetch_ai_news, StockNewsBot.fetch_ai_assets, hd, ha]

theorem topic_fallback_empty_witness :
    StockNewsBot.fetch_ai_news "unknown_topic" "en" "2024-01-01"
        (.ok "Title: T\nSummary: S") = [] :=
  (topic_fallback_empty "unknown_topic" "en" "2024-01-01"
    (.ok "Title: T\nSummary: S") (by decide)).2.1

/-- Claim C7, counterexample: an asset-fetch error does not yield a
"temporarily unavailable" placeholder section — `fetch_ai_assets` returns `[]`
and `send_ai_digest_parts` then skips the assets message entirely, delivering
only the news and predictions sections. -/
theorem generation_error_counterexample :
    StockNewsBot.send_ai_digest_parts "all" "en" "2024-01-01"
        ⟨.ok "Title: T\nSummary: S", .error "Connection timeout",
          .ok "NEWS DIGEST", .ok "PREDICTIONS DIGEST"⟩ =
      ["NEWS DIGEST", "PREDICTIONS DIGEST"] := by decide

/-- Claim C7, amended: every network/service error raised during a
content-generation call is caught inside that call and never propagates, and
no such error aborts the other sections of the digest; the two prose calls
degrade to their locale-appropriate "temporarily unavailable" placeholders,
while a failed news/asset fetch yields the empty item list — in which case the
assets section is omitted rather than replaced by a placeholder. -/
theorem generation_error_degradation (items : List NewsItem)
    (topic language today e : String) (ns nd pd : Except String String)
    (o : StockNewsBot.GenOracles) :
    StockNewsBot.generate_news_digest items topic language (.error e) =
      (if language == "ru" then "📰 **Новости временно недоступны** 📰\n\nПопробуйте позже."
        else "📰 **News temporarily unavailable** 📰\n\nPlease try again later.") ∧
    StockNewsBot.generate_predictions_digest topic language (.error e) =
      (if language == "ru" then "🔮 **Прогнозы временно недоступны** 🔮\n\nПопробуйте позже."
        else "🔮 **Predictions temporarily unavailable** 🔮\n\nPlease try again later.") ∧
    StockNewsBot.fetch_ai_news topic language today (.error e) = [] ∧
    StockNewsBot.fetch_ai_assets topic language (.error e) = [] ∧
    StockNewsBot.send_ai_digest_parts topic language today ⟨ns, .error e, nd, pd⟩ =
      [StockNewsBot.generate_news_digest
          (StockNewsBot.fetch_ai_news topic language today ns) topic language nd,
        StockNewsBot.generate_predictions_digest topic language pd] ∧
    (StockNewsBot.send_ai_digest_parts topic language today o).head? =
      some (StockNewsBot.generate_news_digest
        (StockNewsBot.fetch_ai_news topic language today o.newsSvc)
        topic language o.newsDigestSvc) ∧
    (StockNewsBot.send_ai_digest_parts topic language today o).getLast? =
      some (StockNewsBot.generate_predictions_digest topic language
        o.predictionsSvc) := by
  refine ⟨?_, ?_, ?_, ?_, ?_, ?_, ?_⟩
  · rfl
  · rfl
  · cases h : StockNewsBot.topic_desc topic language <;>
      simp [StockNewsBot.fetch_ai_news, h]
  · cases h : StockNewsBot.asset_desc topic language <;>
      simp [StockNewsBot.fetch_ai_assets, h]
  · cases h : StockNewsBot.asset_desc topic language <;>
      simp [StockNewsBot.send_ai_digest_parts, StockNewsBot.fetch_ai_assets, h]
  · by_cases h : (StockNewsBot.fetch_ai_assets topic language o.assetsSvc).isEmpty <;>
      simp [StockNewsBot.send_ai_digest_parts, h]
  · by_cases h : (StockNewsBot.fetch_ai_assets topic language o.assetsSvc).isEmpty <;>
      simp [StockNewsBot.send_ai_digest_parts, h, List.getLast?_append]

/-! ## Store lemmas -/

theorem setProfile_user_id (id : Nat) (u f l : Option String) (now : Nat)
    (r : UserRow) : (DatabaseManager.setProfile id u f l now r).user_id = r.user_id := by
  unfold DatabaseManager.setProfile; split <;> rfl

theorem setUnsub_user_id (id : Nat) (r : UserRow) :
    (DatabaseManager.setUnsub id r).user_id = r.user_id := by
  unfold DatabaseManager.setUnsub; split <;> rfl

theorem find?_map_id_preserved (g : UserRow → UserRow)
    (hg : ∀ r, (g r).user_id = r.user_id) (id : Nat) :
    ∀ l : List UserRow,
      (l.map g).find? (fun r => r.user_id == id) =
        ((l.find? (fun r => r.user_id == id)).map g) := by
  intro l
  induction l with
  | nil => rfl
  | cons r t ih =>
    by_cases h : (r.user_id == id) = true
    · simp [List.find?_cons, hg, h]
    · simp only [List.map_cons, List.find?_cons, hg, h]
      simpa [h] using ih

theorem find?_append_none (p : UserRow → Bool) (l₁ l₂ : List UserRow)
    (h : l₁.find? p = none) : (l₁ ++ l₂).find? p = l₂.find? p := by
  induction l₁ with
  | nil => rfl
  | cons a t ih =>
    rw [List.find?_eq_none] at h
    have ha : p a = false := by
      have := h a (by simp)
      simpa using this
    have ht : t.find? p = none := by
      rw [List.find?_eq_none]; exact fun x hx => h x (by simp [hx])
    simpa [List.find?_cons, ha] using ih ht

/-- Claim C3: `add_user` is a no-clobber upsert — on an id already present it
rewrites only `username`, `first_name`, `last_name` and `last_active` of that
row (so `subscribed`, `language` and `topic_preferences` survive), and on an
absent id it inserts the row with the table defaults. -/
theorem add_user_no_clobber (db : DatabaseManager) (id : Nat)
    (u f l : Option String) (now : Nat) :
    (∀ r, db.users.find? (fun x => x.user_id == id) = some r →
      (db.add_user id u f l now).users.find? (fun x => x.user_id == id) =
        some { r with username := u, first_name := f, last_name := l,
                      last_active := now }) ∧
    (db.users.find? (fun x => x.user_id == id) = none →
      (db.add_user id u f l now).users.find? (fun x => x.user_id == id) =
        some { user_id := id, username := u, first_name := f, last_name := l,
               subscribed := true, language := "ru", topic_preferences := "all",
               joined_date := now, last_active := now }) := by
  constructor
  · intro r hr
    have hpr := List.find?_some hr
    have hany : db.users.any (fun x => x.user_id == id) = true :=
      List.any_eq_true.mpr ⟨r, List.mem_of_find?_eq_some hr, hpr⟩
    simp only [DatabaseManager.add_user, hany, if_pos]
    rw [find?_map_id_preserved _ (setProfile_user_id id u f l now) id, hr]
    simp [DatabaseManager.setProfile, hpr]
  · intro hn
    rw [List.find?_eq_none] at hn
    have hany : db.users.any (fun x => x.user_id == id) = false := by
      cases hc : db.users.any (fun x => x.user_id == id) with
      | false => rfl
      | true =>
        obtain ⟨x, hx, hpx⟩ := List.any_eq_true.mp hc
        exact absurd hpx (hn x hx)
    simp only [DatabaseManager.add_user, hany]
    rw [if_neg (by simp [hany])]
    simp only
    rw [find?_append_none _ _ _ (List.find?_eq_none.mpr hn)]
    simp [List.find?_cons]

theorem add_user_no_clobber_witness :
    (DatabaseManager.add_user
        ⟨[{ user_id := 7, username := some "old", first_name := none,
            last_name := none, subscribed := false, language := "en",
            topic_preferences := "technology", joined_date := 3,
            last_active := 3 }], []⟩ 7 (some "new") (some "N") none 9).users.find?
        (fun x => x.user_id == 7) =
      some { user_id := 7, username := some "new", first_name := some "N",
             last_name := none, subscribed := false, language := "en",
             topic_preferences := "technology", joined_date := 3,
             last_active := 9 } ∧
    (DatabaseManager.add_user DatabaseManager.empty 7 (some "new") none none
        9).users.find? (fun x => x.user_id == 7) =
      some { user_id := 7, username := some "new", first_name := none,
             last_name := none, subscribed := true, language := "ru",
             topic_preferences := "all", joined_date := 9,
             last_active := 9 } := by
  constructor
  · exact (add_user_no_clobber _ 7 (some "new") (some "N") none 9).1
      { user_id := 7, username := some "old", first_name := none,
        last_name := none, subscribed := false, language := "en",
        topic_preferences := "technology", joined_date := 3, last_active := 3 } rfl
  · exact (add_user_no_clobber DatabaseManager.empty 7 (some "new") none none 9).2 rfl

theorem add_user_length_le (db : DatabaseManager) (id : Nat)
    (u f l : Option String) (now : Nat) :
    db.users.length ≤ (db.add_user id u f l now).users.length := by
  unfold DatabaseManager.add_user
  split <;> simp

theorem start_command_admins_stable (db : DatabaseManager) (id : Nat)
    (u f l : Option String) (now : Nat) (h2 : 2 ≤ db.users.length) :
    (StockNewsBot.start_command db id u f l now).admin_users = db.admin_users ∧
      2 ≤ (StockNewsBot.start_command db id u f l now).users.length := by
  have hlen : 2 ≤ (db.add_user id u f l now).users.length :=
    le_trans h2 (add_user_length_le db id u f l now)
  have hne : ((db.add_user id u f l now).get_user_count == 1) = false := by
    simp only [DatabaseManager.get_user_count, beq_eq_false_iff_ne]
    omega
  have hadm : (db.add_user id u f l now).admin_users = db.admin_users := by
    unfold DatabaseManager.add_user; split <;> rfl
  simp [StockNewsBot.start_command, hne, hadm, hlen]

theorem applyStarts_admins_stable (ops : List (Nat × Option String × Option String × Option String × Nat)) :
    ∀ db : DatabaseManager, 2 ≤ db.users.length →
      (applyStarts db ops).admin_users = db.admin_users := by
  induction ops with
  | nil => intro db _; rfl
  | cons q rest ih =>
    intro db h2
    have hs := start_command_admins_stable db q.1 q.2.1 q.2.2.1 q.2.2.2.1 q.2.2.2.2 h2
    calc (applyStarts (StockNewsBot.start_command db q.1 q.2.1 q.2.2.1 q.2.2.2.1 q.2.2.2.2) rest).admin_users
        = (StockNewsBot.start_command db q.1 q.2.1 q.2.2.1 q.2.2.2.1 q.2.2.2.2).admin_users :=
          ih _ hs.2
      _ = db.admin_users := hs.1

/-- Claim C4, counterexample: after the first user (id 1) registers from an
empty store, an admin check on a different, never-registered id 2 (reachable
via the `/addadmin` handler, which checks `is_admin` without registering the
caller) also returns true and implicitly grants id 2 admin — so a second
implicit admin grant can happen in one empty-store lifetime. -/
theorem bootstrap_admin_counterexample :
    (StockNewsBot.is_admin
        (StockNewsBot.start_command DatabaseManager.empty 1 none none none 0) 2).1 = true ∧
      (StockNewsBot.is_admin
        (StockNewsBot.start_command DatabaseManager.empty 1 none none none 0) 2).2.admin_users = [1, 2] := by
  decide

/-- Claim C4, amended: from an empty store the first id registered via
`/start` is automatically granted admin and its admin check returns true; the
second distinct id registered afterward is not automatically admin; and along
any sequence of `/start` registrations exactly one implicit grant occurs (the
admin set stays `[A]`) — but the `is_admin` bootstrap check itself grants any
id checked while the store holds exactly one user, so a second implicit grant
is possible outside the registration flow. -/
theorem bootstrap_admin_amended (A B : Nat) (u1 f1 l1 u2 f2 l2 : Option String)
    (t1 t2 : Nat) (hAB : A ≠ B)
    (future : List (Nat × Option String × Option String × Option String × Nat)) :
    (StockNewsBot.is_admin
        (StockNewsBot.start_command DatabaseManager.empty A u1 f1 l1 t1) A).1 = true ∧
    (StockNewsBot.start_command DatabaseManager.empty A u1 f1 l1 t1).admin_users = [A] ∧
    (StockNewsBot.is_admin
        (StockNewsBot.start_command
          (StockNewsBot.start_command DatabaseManager.empty A u1 f1 l1 t1)
          B u2 f2 l2 t2) B).1 = false ∧
    (StockNewsBot.start_command
        (StockNewsBot.start_command DatabaseManager.empty A u1 f1 l1 t1)
        B u2 f2 l2 t2).admin_users = [A] ∧
    (applyStarts
        (StockNewsBot.start_command
          (StockNewsBot.start_command DatabaseManager.empty A u1 f1 l1 t1)
          B u2 f2 l2 t2) future).admin_users = [A] := by
  have hAB' : (A == B) = false := by simp [hAB]
  have hBA' : (B == A) = false := by simp [Ne.symm hAB]
  have h1 : StockNewsBot.start_command DatabaseManager.empty A u1 f1 l1 t1 =
      ⟨[⟨A, u1, f1, l1, true, "ru", "all", t1, t1⟩], [A]⟩ := rfl
  have h2 : StockNewsBot.start_command
      (StockNewsBot.start_command DatabaseManager.empty A u1 f1 l1 t1)
      B u2 f2 l2 t2 =
      ⟨[⟨A, u1, f1, l1, true, "ru", "all", t1, t1⟩,
        ⟨B, u2, f2, l2, true, "ru", "all", t2, t2⟩], [A]⟩ := by
    rw [h1]
    simp [StockNewsBot.start_command, DatabaseManager.add_user,
      DatabaseManager.get_user_count, hAB']
  refine ⟨rfl, by rw [h1], ?_, by rw [h2], ?_⟩
  · rw [h2]
    simp only [StockNewsBot.is_admin, DatabaseManager.get_user_count,
      DatabaseManager.is_admin, List.contains]
    simp only [List.length_cons, List.length_nil]
    simp
    exact Ne.symm hAB
  · rw [h2]
    exact applyStarts_admins_stable future _ (by simp)

theorem bootstrap_admin_amended_witness :
    (StockNewsBot.is_admin
        (StockNewsBot.start_command DatabaseManager.empty 1 none none none 0) 1).1 = true ∧
      (applyStarts
        (StockNewsBot.start_command
          (StockNewsBot.start_command DatabaseManager.empty 1 none none none 0)
          2 none none none 3) [(5, some "u", none, none, 7)]).admin_users = [1] := by
  have h := bootstrap_admin_amended 1 2 none none none none none none 0 3
    (by decide) [(5, some "u", none, none, 7)]
  exact ⟨h.1, h.2.2.2.2⟩

/-! ## Broadcast-loop lemmas -/

theorem runNotify_succ_count (d : Nat → Except String Unit) :
    ∀ (l : List Nat) (s f : Nat) (db : DatabaseManager),
      (StockNewsBot.runNotify d l s f db).1 = s + l.countP (okDeliv d) := by
  intro l
  induction l with
  | nil => intro s f db; simp [StockNewsBot.runNotify]
  | cons uid rest ih =>
    intro s f db
    cases h : d uid with
    | ok v =>
      have hok : okDeliv d uid = true := by simp [okDeliv, h]
      rw [List.countP_cons_of_pos _ rest hok]
      simp only [StockNewsBot.runNotify, h, ih]
      omega
    | error e =>
      have hok : ¬ (okDeliv d uid = true) := by simp [okDeliv, h]
      rw [List.countP_cons_of_neg _ rest hok]
      simp only [StockNewsBot.runNotify, h, ih]

theorem runNotify_fail_count (d : Nat → Except String Unit) :
    ∀ (l : List Nat) (s f : Nat) (db : DatabaseManager),
      (StockNewsBot.runNotify d l s f db).2.1 =
        f + l.countP (fun u => !(okDeliv d u)) := by
  intro l
  induction l with
  | nil => intro s f db; simp [StockNewsBot.runNotify]
  | cons uid rest ih =>
    intro s f db
    cases h : d uid with
    | ok v =>
      have hok : ¬ ((!(okDeliv d uid)) = true) := by simp [okDeliv, h]
      rw [List.countP_cons_of_neg _ rest hok]
      simp only [StockNewsBot.runNotify, h, ih]
    | error e =>
      have hok : (!(okDeliv d uid)) = true := by simp [okDeliv, h]
      rw [List.countP_cons_of_pos _ rest hok]
      simp only [StockNewsBot.runNotify, h, ih]
      omega

theorem countP_ok_add_countP_fail (d : Nat → Except String Unit) (l : List Nat) :
    l.countP (okDeliv d) + l.countP (fun u => !(okDeliv d u)) = l.length := by
  induction l with
  | nil => rfl
  | cons uid rest ih =>
    rw [List.countP_cons, List.countP_cons]
    cases h : okDeliv d uid <;> simp [h] <;> omega

/-- Claim C1: fan-out isolation — when exactly one subscriber's processing
raises (content generation or send) and every other delivery succeeds, both
broadcast entry points catch the exception, keep iterating, and report
N−1 successes and exactly 1 failure over the N subscribers (successes plus
failures always account for every subscriber). -/
theorem fanout_isolation (db : DatabaseManager) (d : Nat → Except String Unit)
    (h : db.get_subscribed_users.countP (fun u => !(okDeliv d u)) = 1) :
    (StockNewsBot.send_daily_notifications db d).1 =
        db.get_subscribed_users.length - 1 ∧
      (StockNewsBot.send_daily_notifications db d).2.1 = 1 ∧
      (StockNewsBot.send_daily_notifications db d).1 +
          (StockNewsBot.send_daily_notifications db d).2.1 =
        db.get_subscribed_users.length ∧
      (StockNewsBot.notify_command db d).1 =
        db.get_subscribed_users.length - 1 ∧
      (StockNewsBot.notify_command db d).2.1 = 1 ∧
      (StockNewsBot.notify_command db d).2.2.1 =
        db.get_subscribed_users.length := by
  have hs := runNotify_succ_count d db.get_subscribed_users 0 0 db
  have hf := runNotify_fail_count d db.get_subscribed_users 0 0 db
  have ht := countP_ok_add_countP_fail d db.get_subscribed_users
  simp only [StockNewsBot.send_daily_notifications, StockNewsBot.notify_command]
  refine ⟨?_, ?_, ?_, ?_, ?_, ?_⟩ <;> first | trivial | omega

theorem fanout_isolation_witness :
    (StockNewsBot.send_daily_notifications
        ⟨[⟨1, none, none, none, true, "ru", "all", 0, 0⟩,
          ⟨2, none, none, none, true, "ru", "all", 0, 0⟩,
          ⟨3, none, none, none, true, "ru", "all", 0, 0⟩], []⟩
        (fun u => if u == 2 then .error "Timed out" else .ok ())).1 = 2 ∧
      (StockNewsBot.send_daily_notifications
        ⟨[⟨1, none, none, none, true, "ru", "all", 0, 0⟩,
          ⟨2, none, none, none, true, "ru", "all", 0, 0⟩,
          ⟨3, none, none, none, true, "ru", "all", 0, 0⟩], []⟩
        (fun u => if u == 2 then .error "Timed out" else .ok ())).2.1 = 1 := by
  have h := fanout_isolation
    ⟨[⟨1, none, none, none, true, "ru", "all", 0, 0⟩,
      ⟨2, none, none, none, true, "ru", "all", 0, 0⟩,
      ⟨3, none, none, none, true, "ru", "all", 0, 0⟩], []⟩
    (fun u => if u == 2 then .error "Timed out" else .ok ()) (by decide)
  exact ⟨h.1, h.2.1⟩

theorem is_subscribed_unsubscribe (db : DatabaseManager) (x uid : Nat) :
    (db.unsubscribe_user x).is_subscribed uid =
      if uid = x then false else db.is_subscribed uid := by
  unfold DatabaseManager.unsubscribe_user DatabaseManager.is_subscribed
  rw [find?_map_id_preserved _ (setUnsub_user_id x) uid db.users]
  cases hr : db.users.find? (fun r => r.user_id == uid) with
  | none => simp
  | some r =>
    have hru : r.user_id = uid := by simpa using List.find?_some hr
    by_cases hux : uid = x <;> simp [DatabaseManager.setUnsub, hru, hux]

theorem allUnsub_unsubscribe_self (db : DatabaseManager) (uid : Nat) :
    allUnsub (db.unsubscribe_user uid) uid := by
  intro r hr hru
  obtain ⟨r0, hr0, rfl⟩ := List.mem_map.mp hr
  unfold DatabaseManager.setUnsub at hru ⊢
  by_cases h0 : (r0.user_id == uid) = true
  · simp [h0]
  · rw [if_neg h0] at hru
    exact absurd (by simp [hru]) h0

theorem allUnsub_unsubscribe_mono (db : DatabaseManager) (x uid : Nat)
    (h : allUnsub db uid) : allUnsub (db.unsubscribe_user x) uid := by
  intro r hr hru
  obtain ⟨r0, hr0, rfl⟩ := List.mem_map.mp hr
  have hid : (DatabaseManager.setUnsub x r0).user_id = r0.user_id :=
    setUnsub_user_id x r0
  have h0 := h r0 hr0 (by rw [← hid]; exact hru)
  unfold DatabaseManager.setUnsub
  split <;> simp [h0]

theorem allUnsub_runNotify_mono (d : Nat → Except String Unit) :
    ∀ (l : List Nat) (s f : Nat) (db : DatabaseManager), allUnsub db uid →
      allUnsub (StockNewsBot.runNotify d l s f db).2.2 uid := by
  intro l
  induction l with
  | nil => intro s f db h; exact h
  | cons x rest ih =>
    intro s f db h
    cases hx : d x with
    | ok v => simpa [StockNewsBot.runNotify, hx] using ih _ _ _ h
    | error e =>
      simp only [StockNewsBot.runNotify, hx]
      by_cases hb : blockedSignal e
      · simpa [hb] using ih _ _ _ (allUnsub_unsubscribe_mono db x uid h)
      · simpa [hb] using ih _ _ _ h

theorem allUnsub_runNotify_blocked (d : Nat → Except String Unit) (uid : Nat)
    (e : String) (he : d uid = .error e) (hb : blockedSignal e = true) :
    ∀ (l : List Nat) (s f : Nat) (db : DatabaseManager), uid ∈ l →
      allUnsub (StockNewsBot.runNotify d l s f db).2.2 uid := by
  intro l
  induction l with
  | nil => intro s f db h; cases h
  | cons x rest ih =>
    intro s f db hmem
    by_cases hxu : x = uid
    · subst hxu
      simp only [StockNewsBot.runNotify, he, hb, if_pos]
      exact allUnsub_runNotify_mono d rest _ _ _
        (allUnsub_unsubscribe_self db x)
    · have hmem' : uid ∈ rest := by
        cases List.mem_cons.mp hmem with
        | inl h => exact absurd h.symm hxu
        | inr h => exact h
      cases hx : d x with
      | ok v => simpa [StockNewsBot.runNotify, hx] using ih _ _ _ hmem'
      | error e2 =>
        simp only [StockNewsBot.runNotify, hx]
        by_cases hb2 : blockedSignal e2
        · rw [if_pos hb2]; exact ih _ _ _ hmem'
        · rw [if_neg hb2]; exact ih _ _ _ hmem'

theorem allUnsub_is_subscribed (db : DatabaseManager) (uid : Nat)
    (h : allUnsub db uid) : db.is_subscribed uid = false := by
  unfold DatabaseManager.is_subscribed
  cases hr : db.users.find? (fun r => r.user_id == uid) with
  | none => rfl
  | some r =>
    exact h r (List.mem_of_find?_eq_some hr) (by simpa using List.find?_some hr)

theorem allUnsub_not_mem_subscribed (db : DatabaseManager) (uid : Nat)
    (h : allUnsub db uid) : uid ∉ db.get_subscribed_users := by
  intro hmem
  unfold DatabaseManager.get_subscribed_users at hmem
  obtain ⟨r, hrf, hru⟩ := List.mem_map.mp hmem
  obtain ⟨hr, hsub⟩ := List.mem_filter.mp hrf
  have := h r hr hru
  rw [this] at hsub
  cases hsub

theorem is_subscribed_runNotify_untouched (d : Nat → Except String Unit)
    (uid : Nat) (hu : ∀ e, d uid = .error e → blockedSignal e = false) :
    ∀ (l : List Nat) (s f : Nat) (db : DatabaseManager),
      (StockNewsBot.runNotify d l s f db).2.2.is_subscribed uid =
        db.is_subscribed uid := by
  intro l
  induction l with
  | nil => intro s f db; rfl
  | cons x rest ih =>
    intro s f db
    cases hx : d x with
    | ok v => simpa [StockNewsBot.runNotify, hx] using ih _ _ db
    | error e =>
      simp only [StockNewsBot.runNotify, hx]
      by_cases hb : blockedSignal e
      · have hxu : x ≠ uid := by
          intro hequ; subst hequ
          rw [hu e hx] at hb; cases hb
        rw [if_pos hb, ih _ _ _, is_subscribed_unsubscribe,
          if_neg (fun hc => hxu hc.symm)]
      · rw [if_neg hb]; exact ih _ _ db

theorem mem_subscribed_unsubscribe_ne (db : DatabaseManager) (x uid : Nat)
    (hne : uid ≠ x) (h : uid ∈ db.get_subscribed_users) :
    uid ∈ (db.unsubscribe_user x).get_subscribed_users := by
  unfold DatabaseManager.get_subscribed_users at h ⊢
  obtain ⟨r, hrf, hru⟩ := List.mem_map.mp h
  obtain ⟨hr, hsub⟩ := List.mem_filter.mp hrf
  have hfix : DatabaseManager.setUnsub x r = r := by
    unfold DatabaseManager.setUnsub
    rw [if_neg (by simp [hru, hne])]
  refine List.mem_map.mpr ⟨r, List.mem_filter.mpr ⟨?_, hsub⟩, hru⟩
  unfold DatabaseManager.unsubscribe_user
  simpa [hfix] using List.mem_map.mpr ⟨r, hr, hfix⟩

theorem mem_subscribed_runNotify_untouched (d : Nat → Except String Unit)
    (uid : Nat) (hu : ∀ e, d uid = .error e → blockedSignal e = false) :
    ∀ (l : List Nat) (s f : Nat) (db : DatabaseManager),
      uid ∈ db.get_subscribed_users →
        uid ∈ (StockNewsBot.runNotify d l s f db).2.2.get_subscribed_users := by
  intro l
  induction l with
  | nil => intro s f db h; exact h
  | cons x rest ih =>
    intro s f db h
    cases hx : d x with
    | ok v => simpa [StockNewsBot.runNotify, hx] using ih _ _ db h
    | error e =>
      simp only [StockNewsBot.runNotify, hx]
      by_cases hb : blockedSignal e
      · have hxu : uid ≠ x := by
          intro hequ; subst hequ
          rw [hu e hx] at hb; cases hb
        rw [if_pos hb]
        exact ih _ _ _ (mem_subscribed_unsubscribe_ne db x uid hxu h)
      · rw [if_neg hb]; exact ih _ _ db h

/-- Claim C2: auto-unsubscribe on the permanent-failure signal — for any
subscriber targeted by the broadcast, a delivery exception whose text carries
`"bot was blocked"` (case-insensitively) leaves that subscriber's `subscribed`
flag false after the loop and excludes it from the next
`get_subscribed_users()`; any other delivery exception leaves the flag
unchanged and the subscriber still listed. -/
theorem auto_unsubscribe_on_blocked (db : DatabaseManager)
    (d : Nat → Except String Unit) (uid : Nat)
    (hmem : uid ∈ db.get_subscribed_users) :
    ((∃ e, d uid = .error e ∧ blockedSignal e = true) →
      (StockNewsBot.send_daily_notifications db d).2.2.is_subscribed uid = false ∧
        uid ∉ (StockNewsBot.send_daily_notifications db d).2.2.get_subscribed_users) ∧
    ((∀ e, d uid = .error e → blockedSignal e = false) →
      (StockNewsBot.send_daily_notifications db d).2.2.is_subscribed uid =
          db.is_subscribed uid ∧
        uid ∈ (StockNewsBot.send_daily_notifications db d).2.2.get_subscribed_users) := by
  constructor
  · rintro ⟨e, he, hb⟩
    have hall := allUnsub_runNotify_blocked d uid e he hb
      db.get_subscribed_users 0 0 db hmem
    exact ⟨allUnsub_is_subscribed _ _ hall, allUnsub_not_mem_subscribed _ _ hall⟩
  · intro hu
    exact ⟨is_subscribed_runNotify_untouched d uid hu _ 0 0 db,
      mem_subscribed_runNotify_untouched d uid hu _ 0 0 db hmem⟩

theorem auto_unsubscribe_on_blocked_witness :
    ((StockNewsBot.send_daily_notifications
        ⟨[⟨1, none, none, none, true, "ru", "all", 0, 0⟩], []⟩
        (fun _ => .error "Forbidden: BOT was Blocked by the user")).2.2.is_subscribed 1
      = false) ∧
    ((StockNewsBot.send_daily_notifications
        ⟨[⟨1, none, none, none, true, "ru", "all", 0, 0⟩], []⟩
        (fun _ => .error "Network timeout")).2.2.is_subscribed 1 =
      DatabaseManager.is_subscribed
        ⟨[⟨1, none, none, none, true, "ru", "all", 0, 0⟩], []⟩ 1) := by
  constructor
  · exact ((auto_unsubscribe_on_blocked
      ⟨[⟨1, none, none, none, true, "ru", "all", 0, 0⟩], []⟩
      (fun _ => .error "Forbidden: BOT was Blocked by the user") 1 (by decide)).1
      ⟨"Forbidden: BOT was Blocked by the user", rfl, by decide⟩).1
  · exact ((auto_unsubscribe_on_blocked
      ⟨[⟨1, none, none, none, true, "ru", "all", 0, 0⟩], []⟩
      (fun _ => .error "Network timeout") 1 (by decide)).2
      (fun e he => by
        have he' : "Network timeout" = e := by injection he
        subst he'; decide)).1

/-! ## Schedule-driver lemmas -/

theorem runTicks_no_fire : ∀ (n start : Nat) (j : Job),
    start + n ≤ j.nextRun → runTicks start n j = (0, j) := by
  intro n
  induction n with
  | zero => intro start j _; rfl
  | succ n ih =>
    intro start j h
    have hlt : ¬ (j.nextRun ≤ start) := by omega
    simp [runTicks, run_pending, hlt, ih (start + 1) j (by omega)]

theorem runTicks_single_fire : ∀ (n start : Nat) (j : Job),
    start ≤ j.nextRun → j.nextRun < start + n →
    start + n ≤ j.nextRun + j.period →
    runTicks start n j = (1, ⟨j.nextRun + j.period, j.period⟩) := by
  intro n
  induction n with
  | zero => intro start j h1 h2 _; omega
  | succ n ih =>
    intro start j h1 h2 h3
    by_cases hf : j.nextRun ≤ start
    · simp [runTicks, run_pending, hf,
        runTicks_no_fire n (start + 1) ⟨j.nextRun + j.period, j.period⟩
          (by simp; omega)]
    · simp [runTicks, run_pending, hf,
        ih (start + 1) j (by omega) (by omega) (by omega)]

/-- Claim C6: a job bound to 08:00 with weekday mask Monday–Friday (the
five `schedule.every().<weekday>.at("08:00")` bindings, week origin Monday
00:00:00, so Tuesday 08:00:00 is second 115200): under the 1-second polling
loop the Tuesday binding does not fire on the Tuesday ticks before 08:00:00,
fires exactly at the tick observing 08:00:00, never fires again on the
remaining ticks of that day, fires exactly once over the whole Tuesday — and
no binding of the mask (rescheduled one week ahead after its weekly firing,
`nextRun = k*86400 + 28800 + 604800`) fires on any tick of Saturday
(seconds 432000..518399). -/
theorem schedule_firing_0800_weekdays :
    morning_weekday_jobs[1]? = some tue0800Job ∧
    runTicks 86400 28800 tue0800Job = (0, tue0800Job) ∧
    run_pending 115200 tue0800Job = (true, ⟨720000, 604800⟩) ∧
    runTicks 115201 57599 ⟨720000, 604800⟩ = (0, ⟨720000, 604800⟩) ∧
    (runTicks 86400 86400 tue0800Job).1 = 1 ∧
    (∀ k : Nat, runTicks 432000 86400 ⟨k * 86400 + 28800 + 604800, 604800⟩ =
      (0, ⟨k * 86400 + 28800 + 604800, 604800⟩)) := by
  refine ⟨rfl, ?_, rfl, ?_, ?_, ?_⟩
  · exact runTicks_no_fire 28800 86400 tue0800Job (by norm_num [tue0800Job])
  · exact runTicks_no_fire 57599 115201 ⟨720000, 604800⟩ (by norm_num)
  · rw [runTicks_single_fire 86400 86400 tue0800Job (by norm_num [tue0800Job])
      (by norm_num [tue0800Job]) (by norm_num [tue0800Job])]
  · intro k
    exact runTicks_no_fire 86400 432000 ⟨k * 86400 + 28800 + 604800, 604800⟩
      (by show 432000 + 86400 ≤ k * 86400 + 28800 + 604800; omega)

/-! ## Parser lemmas -/

theorem collectLimit_length_le (f : α → Option β) :
    ∀ (limit : Nat) (l : List α), 1 ≤ limit →
      (collectLimit f limit l).length ≤ limit := by
  intro limit l
  induction l generalizing limit with
  | nil => intro h; simp [collectLimit]
  | cons s rest ih =>
    intro h
    cases hf : f s with
    | none => simpa [collectLimit, hf] using ih limit h
    | some b =>
      by_cases hl : limit ≤ 1
      · simp [collectLimit, hf, hl]
        omega
      · have ihm := ih (limit - 1) (by omega)
        simp [collectLimit, hf, hl]
        omega

theorem collectLimit_mem (f : α → Option β) :
    ∀ (limit : Nat) (l : List α) (b : β), b ∈ collectLimit f limit l →
      ∃ s ∈ l, f s = some b := by
  intro limit l
  induction l generalizing limit with
  | nil => intro b h; cases h
  | cons s rest ih =>
    intro b h
    cases hf : f s with
    | none =>
      simp only [collectLimit, hf] at h
      obtain ⟨s0, hs0, hfs0⟩ := ih limit b h
      exact ⟨s0, List.mem_cons_of_mem s hs0, hfs0⟩
    | some b0 =>
      simp only [collectLimit, hf] at h
      by_cases hl : limit ≤ 1
      · rw [if_pos hl] at h
        exact ⟨s, List.mem_cons_self s rest, by rw [hf, List.mem_singleton.mp h]⟩
      · rw [if_neg hl] at h
        cases List.mem_cons.mp h with
        | inl hb =>
          exact ⟨s, List.mem_cons_self s rest, by rw [hf, hb]⟩
        | inr hb =>
          obtain ⟨s0, hs0, hfs0⟩ := ih (limit - 1) b hb
          exact ⟨s0, List.mem_cons_of_mem s hs0, hfs0⟩

theorem findNumber_of_no_digit :
    ∀ l : List Char, (∀ c ∈ l, c.isDigit = false) → findNumber l = none := by
  intro l
  induction l with
  | nil => intro _; rfl
  | cons c t ih =>
    intro h
    have hc : c.isDigit = false := h c (List.mem_cons_self c t)
    rw [findNumber, if_neg (by simp [hc])]
    exact ih (fun x hx => h x (List.mem_cons_of_mem c hx))

theorem priceOf_no_digit (pstr : List Char)
    (h : ∀ c ∈ pstr, c.isDigit = false) : priceOf pstr = 100 := by
  unfold priceOf
  rw [findNumber_of_no_digit _ (fun c hc => h c (List.mem_filter.mp hc).1)]
  rfl

/-- Claim C8: for every input text, the news parser returns at most 7 records,
each built from a paragraph on which both the `Title:` and `Summary:`
extractions succeeded (paragraphs missing either are dropped); the asset
parser returns at most 7 records, each built from a paragraph with `Symbol:`,
`Price:` and a numeric `Change:` (entries missing any are dropped); and a
price text containing no digit is kept with the fixed sentinel price `100`
rather than dropped — as the concrete non-numeric-price record shows. -/
theorem parse_postconditions (today content : String) :
    (StockNewsBot.parse_ai_news today content).length ≤ 7 ∧
    (StockNewsBot.parse_ai_assets content).length ≤ 7 ∧
    (∀ item ∈ StockNewsBot.parse_ai_news today content,
      ∃ sec ∈ splitParas (splitLines (pyStrip content.data)),
        (fieldStr "Title:".data sec).isSome ∧ (summaryStr sec).isSome ∧
          StockNewsBot.newsOfSection today.data sec = some item) ∧
    (∀ a ∈ StockNewsBot.parse_ai_assets content,
      ∃ sec ∈ splitParas (splitLines (pyStrip content.data)), ∃ pstr,
        fieldStr "Symbol:".data sec = some a.symbol.data ∧
          fieldStr "Price:".data sec = some pstr ∧
          changeNum sec = some a.change ∧ a.price = priceOf pstr) ∧
    (∀ pstr : List Char, (∀ c ∈ pstr, c.isDigit = false) →
      priceOf pstr = 100) ∧
    StockNewsBot.parse_ai_assets
        "Symbol: GOLD\nPrice: unavailable today\nChange: +1.5" =
      [{ symbol := "GOLD", name := "GOLD", price := 100, change := mkRat 3 2,
         change_direction := "up", source := "AI Research" }] := by
  refine ⟨?_, ?_, ?_, ?_, ?_, ?_⟩
  · exact collectLimit_length_le _ 7 _ (by omega)
  · exact collectLimit_length_le _ 7 _ (by omega)
  · intro item hitem
    obtain ⟨sec, hsec, hf⟩ := collectLimit_mem _ 7 _ item hitem
    refine ⟨sec, hsec, ?_, ?_, hf⟩
    · cases ht : fieldStr "Title:".data sec with
      | none => rw [StockNewsBot.newsOfSection, ht] at hf; cases hf
      | some t => rfl
    · cases hs : summaryStr sec with
      | none =>
        rw [StockNewsBot.newsOfSection, hs] at hf
        revert hf
        cases fieldStr "Title:".data sec <;> intro hf <;> cases hf
      | some t => rfl
  · intro a ha
    obtain ⟨sec, hsec, hf⟩ := collectLimit_mem _ 7 _ a ha
    rw [StockNewsBot.assetOfSection] at hf
    cases hsym : fieldStr "Symbol:".data sec with
    | none => rw [hsym] at hf; cases hf
    | some sym =>
      cases hpr : fieldStr "Price:".data sec with
      | none => rw [hsym, hpr] at hf; cases hf
      | some pstr =>
        cases hch : changeNum sec with
        | none => rw [hsym, hpr, hch] at hf; cases hf
        | some chg =>
          rw [hsym, hpr, hch] at hf
          simp only [Option.some_inj] at hf
          refine ⟨sec, hsec, pstr, ?_, hpr, ?_, ?_⟩
          · rw [hsym, ← hf]
          · rw [hch, ← hf]
          · rw [← hf]
  · exact fun pstr h => priceOf_no_digit pstr h
  · decide

theorem parse_postconditions_witness :
    priceOf "unavailable today".data = 100 ∧
      (StockNewsBot.parse_ai_news "2024-01-01" "Title: T\nSummary: S").length ≤ 7 := by
  have h := parse_postconditions "2024-01-01" "Title: T\nSummary: S"
  exact ⟨h.2.2.2.2.1 "unavailable today".data (by decide), h.1⟩
